import Mathlib

/-!
Shallow embedding of the filter-and-aggregation pipeline of
`src/Main_Dashboard.py` (a streamlit dashboard over a water-consumption
table), together with proofs about the spec's claims.

Modelling conventions:
* a pandas `DataFrame` row becomes a record (`Row`; after line 74 adds the
  `Leakage` column, `LRow`); a frame becomes a `List` of rows, preserving
  order;
* `float` values become `ℚ` (exact rationals); the decimal literals of the
  source (`0.05`, `1e-5`, `1.1`) become the exact rationals `5/100`,
  `1/100000`, `11/10`;
* a `Time` cell becomes a `Timestamp` record carrying the calendar parts the
  script extracts with `.dt.year/.month/.day` (lines 21-23);
* a streamlit multiselect result becomes a `List` of values; python's
  truthiness test `if selected:` becomes the test against `[]`;
* `pandas.Series.max()` becomes `List.max?`, with `none` standing for the
  `NaN` that pandas returns on an empty series.
-/

namespace MainDashboard

/-- Calendar value of a parsed `Time` cell; the pipeline only ever groups on
the whole timestamp or filters on the `year`/`month`/`day` parts extracted at
lines 21-23, so those parts are the relevant observation of the value. -/
structure Timestamp where
  year : Int
  month : Nat
  day : Nat
deriving DecidableEq

/-- One row of the loaded table (after lines 21-23 have derived the calendar
columns, which we expose as the functions `Row.Year` etc. below, since the
script always sets them to the parts of `Time`). Field names follow the
source's column names. -/
structure Row where
  User_ID : String
  Area_Code : String
  Device_ID : String
  Water_Usage : String
  Time : Timestamp
  Monthly_Water_Consumption : ℚ
  Daily_Water_Consumption : ℚ
  Hourly_Water_Consumption : ℚ
deriving DecidableEq

/-- Column `Year` (line 21: `data['Year'] = data['Time'].dt.year`). -/
def Row.Year (r : Row) : Int := r.Time.year

/-- Column `Month` (line 22). -/
def Row.Month (r : Row) : Nat := r.Time.month

/-- Column `Day` (line 23). -/
def Row.Day (r : Row) : Nat := r.Time.day

/-- The sidebar selections (lines 47-53), one list per filterable dimension;
field names follow the source's variable names. -/
structure Selection where
  selected_id : List String
  selected_area_code : List String
  selected_device_id : List String
  selected_water_usage : List String
  selected_year : List Int
  selected_month : List Nat
  selected_day : List Nat
deriving DecidableEq

/-- One `if selected_x: filtered = filtered[filtered[col].isin(selected_x)]`
step of lines 58-71: an empty (falsy) selection leaves the frame untouched,
a non-empty one keeps the rows whose value is a member of the selection. -/
def dimFilter {ρ α : Type} [DecidableEq α] (sel : List α) (get : ρ → α)
    (rows : List ρ) : List ρ :=
  if sel = [] then rows else rows.filter (fun r => decide (get r ∈ sel))

/-- Lines 56-71: `filtered_data = data.copy()` followed by the seven
dimension filters, in the source's order. (The `.copy()` is the identity on
our immutable row lists; the aliasing question it answers is modelled
separately by `ProgState` below.) -/
def filtered_data (data : List Row) (sel : Selection) : List Row :=
  let f := data
  let f := dimFilter sel.selected_id (fun r => r.User_ID) f
  let f := dimFilter sel.selected_area_code (fun r => r.Area_Code) f
  let f := dimFilter sel.selected_device_id (fun r => r.Device_ID) f
  let f := dimFilter sel.selected_water_usage (fun r => r.Water_Usage) f
  let f := dimFilter sel.selected_year Row.Year f
  let f := dimFilter sel.selected_month Row.Month f
  let f := dimFilter sel.selected_day Row.Day f
  f

/-- A row of `filtered_data` after line 74 has added the `Leakage` column. -/
structure LRow extends Row where
  Leakage : ℚ
deriving DecidableEq

/-- Line 74: `filtered_data['Leakage'] = filtered_data['Monthly_Water_Consumption'] * 0.05`
applied to one row. -/
def addLeakage (r : Row) : LRow :=
  { r with Leakage := r.Monthly_Water_Consumption * (5/100) }

/-- The filtered table as it stands at lines 74-79: the seven filters applied
and the `Leakage` column added. This is the table `st.dataframe` displays at
line 79, before any epsilon flooring. -/
def displayTable (data : List Row) (sel : Selection) : List LRow :=
  (filtered_data data sel).map addLeakage

/-- The epsilon floor of lines 129-130:
`lambda x: x if x > 0 else 1e-5`. -/
def epsFloor (x : ℚ) : ℚ := if x > 0 then x else 1/100000

/-- Lines 129-130 applied to one row: the `Monthly_Water_Consumption` and
`Daily_Water_Consumption` columns are floored in place; every other column
(in particular `Leakage`) is untouched. -/
def floorRow (r : LRow) : LRow :=
  { r with
    Monthly_Water_Consumption := epsFloor r.Monthly_Water_Consumption
    Daily_Water_Consumption := epsFloor r.Daily_Water_Consumption }

/-- The state of `filtered_data` from line 130 on: the in-place floor has
overwritten the two consumption columns of the same frame that the later
`groupby` calls (lines 158, 186, 199) read. -/
def flooredTable (data : List Row) (sel : Selection) : List LRow :=
  (displayTable data sel).map floorRow

/-- First-occurrence deduplication, modelling the key set of a pandas
`groupby` (pandas additionally sorts the keys; no claim here depends on the
order of the grouped rows, only on the key set and the per-key sums). -/
def uniquesAux {α : Type} [DecidableEq α] : List α → List α → List α
  | [], _ => []
  | x :: xs, seen =>
      if x ∈ seen then uniquesAux xs seen else x :: uniquesAux xs (x :: seen)

/-- Distinct values of a list in order of first occurrence (pandas
`Series.unique`, and the key set of `groupby`). -/
def uniques {α : Type} [DecidableEq α] (xs : List α) : List α := uniquesAux xs []

/-- Keys of `groupby(['Time', 'Area_Code'])` over a frame. -/
def groupKeysTA (rows : List LRow) : List (Timestamp × String) :=
  uniques (rows.map (fun r => (r.Time, r.Area_Code)))

/-- Sum of a measure over the rows of one `(Time, Area_Code)` group. -/
def groupSumTA (rows : List LRow) (measure : LRow → ℚ) (k : Timestamp × String) : ℚ :=
  ((rows.filter (fun r => decide (r.Time = k.1 ∧ r.Area_Code = k.2))).map measure).sum

/-- Keys of `groupby(['Month', 'Area_Code'])` over a frame. -/
def groupKeysMA (rows : List LRow) : List (Nat × String) :=
  uniques (rows.map (fun r => (r.Month, r.Area_Code)))

/-- Sum of a measure over the rows of one `(Month, Area_Code)` group. -/
def groupSumMA (rows : List LRow) (measure : LRow → ℚ) (k : Nat × String) : ℚ :=
  ((rows.filter (fun r => decide (r.Month = k.1 ∧ r.Area_Code = k.2))).map measure).sum

/-- Line 158: `filtered_data.groupby(['Time','Area_Code'])['Monthly_Water_Consumption'].sum()`,
computed on the already-floored `filtered_data`. -/
def monthly_consumption (data : List Row) (sel : Selection) :
    List ((Timestamp × String) × ℚ) :=
  (groupKeysTA (flooredTable data sel)).map
    (fun k => (k, groupSumTA (flooredTable data sel)
      (fun r => r.Monthly_Water_Consumption) k))

/-- Line 186: `filtered_data.groupby(['Month','Area_Code'])['Monthly_Water_Consumption'].sum()`,
also computed on the floored frame. -/
def monthly_breakdown (data : List Row) (sel : Selection) :
    List ((Nat × String) × ℚ) :=
  (groupKeysMA (flooredTable data sel)).map
    (fun k => (k, groupSumMA (flooredTable data sel)
      (fun r => r.Monthly_Water_Consumption) k))

/-- Line 199: `filtered_data.groupby(['Time','Area_Code'])['Leakage'].sum()`;
the frame is the floored one, but the `Leakage` column was never floored. -/
def leakage_data (data : List Row) (sel : Selection) :
    List ((Timestamp × String) × ℚ) :=
  (groupKeysTA (flooredTable data sel)).map
    (fun k => (k, groupSumTA (flooredTable data sel) (fun r => r.Leakage) k))

/-- The column of grouped sums feeding the animated bar chart. -/
def barSums (data : List Row) (sel : Selection) : List ℚ :=
  (monthly_consumption data sel).map Prod.snd

/-- The column of grouped sums feeding the leakage chart. -/
def leakSums (data : List Row) (sel : Selection) : List ℚ :=
  (leakage_data data sel).map Prod.snd

/-- Line 166: `range_y=[0, monthly_consumption['Monthly_Water_Consumption'].max() * 1.1]`.
The lower bound is the literal `0`; the upper bound is `max * 1.1`, with
`none` standing for the `NaN` a pandas `.max()` yields on an empty frame. -/
def fig_bar_range_y (data : List Row) (sel : Selection) : ℚ × Option ℚ :=
  (0, (barSums data sel).max?.map (fun m => m * (11/10)))

/-- Line 207: `range_y=[0, leakage_data['Leakage'].max() * 1.1]`. -/
def fig_leakage_range_y (data : List Row) (sel : Selection) : ℚ × Option ℚ :=
  (0, (leakSums data sel).max?.map (fun m => m * (11/10)))

/-! Column-oriented frame model for the loader (`load_data`, lines 8-16),
where the operations are column-level: parse a column, drop columns by
name. -/

/-- Cell of a raw column as read from the input file. A string cell is
classified by whether `pd.to_datetime` accepts it: `timeStr t` is a string
that parses to the timestamp `t`, `str s` is one `pd.to_datetime` rejects.
`timeVal` is a cell already of date-time type. Numeric `Time` columns
(which pandas would read as epochs) are outside the modelled input space. -/
inductive Cell where
  | timeVal : Timestamp → Cell
  | timeStr : Timestamp → Cell
  | num : ℚ → Cell
  | str : String → Cell
deriving DecidableEq

/-- A raw frame: named columns in order, each a list of cells. -/
abbrev Frame := List (String × List Cell)

/-- `pd.to_datetime` on one cell: succeeds exactly on date-time cells and on
strings it can parse, returning the date-time cell. -/
def parseDatetime : Cell → Option Cell
  | .timeVal t => some (.timeVal t)
  | .timeStr t => some (.timeVal t)
  | .num _ => none
  | .str _ => none

/-- Column lookup, `data[name]`. -/
def getCol (f : Frame) (name : String) : Option (List Cell) :=
  (f.find? (fun c => decide (c.1 = name))).map Prod.snd

/-- Column assignment `data[name] = cells` for a `name` already present:
replaces that column's cells in place. -/
def setCol (f : Frame) (name : String) (cells : List Cell) : Frame :=
  f.map (fun c => if c.1 = name then (c.1, cells) else c)

/-- Load-time failures. The source has no explicit error type: a missing
`Time` column raises `KeyError` and an unparseable cell raises inside
`pd.to_datetime`; both abort the script, which we model as the two
`SchemaError` cases the spec names. -/
inductive SchemaError where
  | missingColumn : String → SchemaError
  | unparseableTimestamp : SchemaError
deriving DecidableEq

/-- Lines 12-15 of `load_data`, after the `Time` column has been parsed to
`ps`: drop every column whose name starts with `Unnamed` (line 13, the
regex `^Unnamed` under `str.contains`), then drop the `Anomalous` column
when present (lines 14-15). No other column is examined. -/
def postLoad (f : Frame) (ps : List Cell) : Frame :=
  let d1 := setCol f "Time" ps
  let d2 := d1.filter (fun c => !(c.1.startsWith "Unnamed"))
  if "Anomalous" ∈ d2.map Prod.fst
  then d2.filter (fun c => c.1 != "Anomalous") else d2

/-- Lines 8-16 (`load_data`): parse the `Time` column with `pd.to_datetime`
(line 11; `KeyError` when absent, parse error when any cell is
unparseable), then the column drops of lines 12-15 (`postLoad`). -/
def load_data (f : Frame) : Except SchemaError Frame :=
  match getCol f "Time" with
  | none => .error (.missingColumn "Time")
  | some cs =>
    match cs.mapM parseDatetime with
    | none => .error .unparseableTimestamp
    | some ps => .ok (postLoad f ps)

/-! Mutation model of the script body. The script holds two frame
variables: `data` (the loaded dataset) and `filtered_data`. Every statement
from line 56 on assigns either to `filtered_data` (lines 56, 59-71, 74,
129-130) or to a fresh local (lines 158, 186, 199); `ProgState` records all
of them so that the claim "the pipeline never mutates the loaded dataset"
is about which slot each source statement writes. In `filteredF` the
`Leakage` field holds `0` before line 74 creates the column; the script
never reads the column before that line. -/

structure ProgState where
  dataF : List Row
  filteredF : List LRow
  monthlyConsumptionF : List ((Timestamp × String) × ℚ)
  monthlyBreakdownF : List ((Nat × String) × ℚ)
  leakageDataF : List ((Timestamp × String) × ℚ)
deriving DecidableEq

/-- A `Row` viewed as a frame row before the `Leakage` column exists
(placeholder value `0`, never read before line 74 overwrites it). -/
def toLRow (r : Row) : LRow := { r with Leakage := 0 }

/-- Line 56: `filtered_data = data.copy()`. -/
def step_copy (s : ProgState) : ProgState :=
  { s with filteredF := s.dataF.map toLRow }

/-- Lines 58-71: the seven dimension filters, each reassigning
`filtered_data` only. -/
def step_filters (sel : Selection) (s : ProgState) : ProgState :=
  { s with filteredF :=
      (dimFilter sel.selected_day (fun r => r.Day)
        (dimFilter sel.selected_month (fun r => r.Month)
          (dimFilter sel.selected_year (fun r => r.Year)
            (dimFilter sel.selected_water_usage (fun r => r.Water_Usage)
              (dimFilter sel.selected_device_id (fun r => r.Device_ID)
                (dimFilter sel.selected_area_code (fun r => r.Area_Code)
                  (dimFilter sel.selected_id (fun r => r.User_ID)
                    s.filteredF))))))) }

/-- Line 74: `filtered_data['Leakage'] = ... * 0.05`, writing only
`filtered_data`. -/
def step_leakage (s : ProgState) : ProgState :=
  { s with filteredF :=
      s.filteredF.map (fun r => { r with Leakage := r.Monthly_Water_Consumption * (5/100) }) }

/-- Lines 129-130: the in-place epsilon floor on `filtered_data`. -/
def step_floor (s : ProgState) : ProgState :=
  { s with filteredF := s.filteredF.map floorRow }

/-- Line 158: `monthly_consumption = filtered_data.groupby(...).sum()`, a
fresh frame computed from `filtered_data`. -/
def step_agg_monthly (s : ProgState) : ProgState :=
  let m := (groupKeysTA s.filteredF).map
    (fun k => (k, groupSumTA s.filteredF (fun r => r.Monthly_Water_Consumption) k))
  { s with monthlyConsumptionF := m }

/-- Line 186: `monthly_breakdown = filtered_data.groupby(...).sum()`. -/
def step_agg_breakdown (s : ProgState) : ProgState :=
  let m := (groupKeysMA s.filteredF).map
    (fun k => (k, groupSumMA s.filteredF (fun r => r.Monthly_Water_Consumption) k))
  { s with monthlyBreakdownF := m }

/-- Line 199: `leakage_data = filtered_data.groupby(...)['Leakage'].sum()`. -/
def step_agg_leakage (s : ProgState) : ProgState :=
  let m := (groupKeysTA s.filteredF).map
    (fun k => (k, groupSumTA s.filteredF (fun r => r.Leakage) k))
  { s with leakageDataF := m }

/-- The script body from line 56 to line 199, started on the loaded dataset
`d` (with its calendar columns, lines 21-23). -/
def runScript (d : List Row) (sel : Selection) : ProgState :=
  step_agg_leakage (step_agg_breakdown (step_agg_monthly (step_floor
    (step_leakage (step_filters sel (step_copy ⟨d, [], [], [], []⟩))))))

/-! Helper notions and lemmas about the pipeline. -/

/-- One dimension's membership test as a boolean on a value: the dimension
passes a value when its selection is empty (pass-through) or contains the
value. -/
def dimOk {α : Type} [DecidableEq α] (sel : List α) (v : α) : Bool :=
  decide (sel = []) || decide (v ∈ sel)

theorem dimFilter_eq_filter {ρ α : Type} [DecidableEq α] (sel : List α)
    (get : ρ → α) (rows : List ρ) :
    dimFilter sel get rows = rows.filter (fun r => dimOk sel (get r)) := by
  by_cases h : sel = []
  · subst h
    simp [dimFilter, dimOk]
  · simp [dimFilter, dimOk, h]

/-- The conjunction of the seven per-dimension membership tests on a row. -/
def rowMatches (sel : Selection) (r : Row) : Bool :=
  dimOk sel.selected_id r.User_ID &&
  (dimOk sel.selected_area_code r.Area_Code &&
  (dimOk sel.selected_device_id r.Device_ID &&
  (dimOk sel.selected_water_usage r.Water_Usage &&
  (dimOk sel.selected_year r.Year &&
  (dimOk sel.selected_month r.Month &&
  dimOk sel.selected_day r.Day)))))

theorem filtered_data_eq_filter (data : List Row) (sel : Selection) :
    filtered_data data sel = data.filter (fun r => rowMatches sel r) := by
  simp only [filtered_data, dimFilter_eq_filter, List.filter_filter]
  refine List.filter_congr ?_
  intro x _
  simp only [rowMatches]
  generalize dimOk sel.selected_id x.User_ID = b1
  generalize dimOk sel.selected_area_code x.Area_Code = b2
  generalize dimOk sel.selected_device_id x.Device_ID = b3
  generalize dimOk sel.selected_water_usage x.Water_Usage = b4
  generalize dimOk sel.selected_year x.Year = b5
  generalize dimOk sel.selected_month x.Month = b6
  generalize dimOk sel.selected_day x.Day = b7
  revert b1 b2 b3 b4 b5 b6 b7
  decide

theorem mem_uniquesAux {α : Type} [DecidableEq α] (xs : List α) :
    ∀ (seen : List α) (v : α), v ∈ uniquesAux xs seen ↔ v ∈ xs ∧ v ∉ seen := by
  induction xs with
  | nil => intro seen v; simp [uniquesAux]
  | cons x xs ih =>
    intro seen v
    by_cases h : x ∈ seen
    · simp only [uniquesAux, if_pos h, ih]
      constructor
      · rintro ⟨hv, hs⟩
        exact ⟨List.mem_cons_of_mem _ hv, hs⟩
      · rintro ⟨hv, hs⟩
        rcases List.mem_cons.mp hv with rfl | hv
        · exact absurd h hs
        · exact ⟨hv, hs⟩
    · simp only [uniquesAux, if_neg h, List.mem_cons, ih]
      by_cases hvx : v = x
      · subst hvx
        simp [h]
      · simp [hvx]

theorem mem_uniques {α : Type} [DecidableEq α] (xs : List α) (v : α) :
    v ∈ uniques xs ↔ v ∈ xs := by
  simp [uniques, mem_uniquesAux]

theorem uniques_ne_nil {α : Type} [DecidableEq α] {xs : List α} (h : xs ≠ []) :
    uniques xs ≠ [] := by
  rcases xs with _ | ⟨x, xs⟩
  · exact absurd rfl h
  · intro hc
    have : x ∈ uniques (x :: xs) := (mem_uniques _ _).mpr (List.mem_cons_self _ _)
    rw [hc] at this
    exact List.not_mem_nil _ this

/-- The seven filterable dimensions. -/
inductive Dim
  | user
  | area
  | device
  | usage
  | year
  | month
  | day
deriving DecidableEq

/-- The membership filter of one dimension, as a step on a row list. -/
def applyDim (d : Dim) (sel : Selection) (rows : List Row) : List Row :=
  match d with
  | .user => dimFilter sel.selected_id (fun r => r.User_ID) rows
  | .area => dimFilter sel.selected_area_code (fun r => r.Area_Code) rows
  | .device => dimFilter sel.selected_device_id (fun r => r.Device_ID) rows
  | .usage => dimFilter sel.selected_water_usage (fun r => r.Water_Usage) rows
  | .year => dimFilter sel.selected_year Row.Year rows
  | .month => dimFilter sel.selected_month Row.Month rows
  | .day => dimFilter sel.selected_day Row.Day rows

/-- One dimension's membership test on a row. -/
def dimBool (sel : Selection) (d : Dim) (r : Row) : Bool :=
  match d with
  | .user => dimOk sel.selected_id r.User_ID
  | .area => dimOk sel.selected_area_code r.Area_Code
  | .device => dimOk sel.selected_device_id r.Device_ID
  | .usage => dimOk sel.selected_water_usage r.Water_Usage
  | .year => dimOk sel.selected_year r.Year
  | .month => dimOk sel.selected_month r.Month
  | .day => dimOk sel.selected_day r.Day

theorem applyDim_eq_filter (d : Dim) (sel : Selection) (rows : List Row) :
    applyDim d sel rows = rows.filter (fun r => dimBool sel d r) := by
  cases d <;> simp [applyDim, dimBool, dimFilter_eq_filter, Row.Year, Row.Month, Row.Day]

/-- The dimension filters applied in the order given by `ds`. -/
def applyDims (ds : List Dim) (sel : Selection) (rows : List Row) : List Row :=
  ds.foldl (fun acc d => applyDim d sel acc) rows

/-- The order in which lines 58-71 apply the seven filters. -/
def progOrder : List Dim :=
  [.user, .area, .device, .usage, .year, .month, .day]

theorem applyDims_eq_filter (ds : List Dim) (sel : Selection) (rows : List Row) :
    applyDims ds sel rows
      = rows.filter (fun r => ds.all (fun d => dimBool sel d r)) := by
  induction ds generalizing rows with
  | nil => simp [applyDims]
  | cons d ds ih =>
    have : applyDims (d :: ds) sel rows = applyDims ds sel (applyDim d sel rows) := rfl
    rw [this, ih, applyDim_eq_filter, List.filter_filter]
    refine List.filter_congr ?_
    intro x _
    simp [List.all_cons, Bool.and_comm]

theorem filtered_data_eq_applyDims (data : List Row) (sel : Selection) :
    filtered_data data sel = applyDims progOrder sel data := rfl

theorem perm_all_eq {α : Type} {l₁ l₂ : List α} (h : l₁.Perm l₂) (p : α → Bool) :
    l₁.all p = l₂.all p := by
  induction h with
  | nil => rfl
  | cons x _ ih => simp [List.all_cons, ih]
  | swap x y l =>
    simp only [List.all_cons]
    rw [← Bool.and_assoc, ← Bool.and_assoc, Bool.and_comm (p y) (p x)]
  | trans _ _ ih₁ ih₂ => rw [ih₁, ih₂]

instance : Std.Antisymm (fun a b : ℚ => a ≤ b) :=
  ⟨fun h h2 => le_antisymm h h2⟩

theorem max?_spec {xs : List ℚ} {a : ℚ} :
    xs.max? = some a ↔ a ∈ xs ∧ ∀ b ∈ xs, b ≤ a :=
  List.max?_eq_some_iff (fun x => le_refl x) (fun x y => max_choice x y)
    (fun _ _ _ => max_le_iff)

theorem exists_max_of_ne_nil {xs : List ℚ} (h : xs ≠ []) :
    ∃ m, xs.max? = some m ∧ m ∈ xs ∧ ∀ b ∈ xs, b ≤ m := by
  cases hm : xs.max? with
  | none => exact absurd (List.max?_eq_none_iff.mp hm) h
  | some m =>
    obtain ⟨hmem, hub⟩ := max?_spec.mp hm
    exact ⟨m, rfl, hmem, hub⟩

theorem epsFloor_pos (x : ℚ) : 0 < epsFloor x := by
  by_cases h : x > 0
  · simp [epsFloor, h]
  · norm_num [epsFloor, h]

/-- Lines 129-130 leave the `Time`, `Area_Code`, calendar and `Leakage`
columns of a row untouched. -/
theorem floorRow_preserves (r : LRow) :
    (floorRow r).Time = r.Time ∧ (floorRow r).Area_Code = r.Area_Code ∧
    (floorRow r).Month = r.Month ∧ (floorRow r).Leakage = r.Leakage :=
  ⟨rfl, rfl, rfl, rfl⟩

theorem groupKeysTA_floor (rows : List LRow) :
    groupKeysTA (rows.map floorRow) = groupKeysTA rows := by
  unfold groupKeysTA
  rw [List.map_map]
  rfl

theorem groupSumTA_floor_leakage (rows : List LRow) (k : Timestamp × String) :
    groupSumTA (rows.map floorRow) (fun r => r.Leakage) k
      = groupSumTA rows (fun r => r.Leakage) k := by
  unfold groupSumTA
  rw [List.filter_map, List.map_map]
  rfl

theorem mem_floored_monthly_pos (data : List Row) (sel : Selection) :
    ∀ r ∈ flooredTable data sel, 0 < r.Monthly_Water_Consumption := by
  intro r hr
  rcases List.mem_map.mp hr with ⟨r0, _, rfl⟩
  exact epsFloor_pos _

theorem groupKeysTA_exists_row (rows : List LRow) (k : Timestamp × String)
    (hk : k ∈ groupKeysTA rows) :
    ∃ r ∈ rows, r.Time = k.1 ∧ r.Area_Code = k.2 := by
  unfold groupKeysTA at hk
  rw [mem_uniques] at hk
  rcases List.mem_map.mp hk with ⟨r, hr, rfl⟩
  exact ⟨r, hr, rfl, rfl⟩

theorem barSums_pos (data : List Row) (sel : Selection) :
    ∀ x ∈ barSums data sel, 0 < x := by
  intro x hx
  unfold barSums monthly_consumption at hx
  rw [List.map_map] at hx
  rcases List.mem_map.mp hx with ⟨k, hk, rfl⟩
  show 0 < groupSumTA (flooredTable data sel) (fun r => r.Monthly_Water_Consumption) k
  obtain ⟨r, hr, ht, ha⟩ := groupKeysTA_exists_row _ _ hk
  unfold groupSumTA
  apply List.sum_pos
  · intro y hy
    rcases List.mem_map.mp hy with ⟨r2, hr2, rfl⟩
    exact mem_floored_monthly_pos data sel r2 (List.mem_filter.mp hr2).1
  · exact List.ne_nil_of_mem
      (List.mem_map_of_mem _ (List.mem_filter.mpr ⟨hr, by simp [ht, ha]⟩))

/-! Concrete sample inputs used by counterexamples and witnesses. -/

/-- A sample timestamp. -/
def t0 : Timestamp := ⟨2024, 1, 15⟩

/-- The selection with nothing picked in any control (every multiselect
empty, every select-all box unchecked). -/
def emptySel : Selection := ⟨[], [], [], [], [], [], []⟩

/-- Row builder for the sample datasets. -/
def mkRow (uid area : String) (m : ℚ) : Row :=
  { User_ID := uid, Area_Code := area, Device_ID := "D1", Water_Usage := "Home",
    Time := t0, Monthly_Water_Consumption := m, Daily_Water_Consumption := 4,
    Hourly_Water_Consumption := 1 }

/-- The 3-record dataset of the spec's scenario 6: `Area_Code` values
`[A, A, B]`, `Monthly_Water_Consumption` values `[10, 20, -5]`. -/
def dScenario : List Row := [mkRow "U1" "A" 10, mkRow "U2" "A" 20, mkRow "U3" "B" (-5)]

/-- Every dimension fully selected for `dScenario`: each select-all checkbox
sets the selection to the column's unique values (lines 31-32, 38-44). -/
def selScenario : Selection :=
  { selected_id := uniques (dScenario.map (fun r => r.User_ID))
    selected_area_code := uniques (dScenario.map (fun r => r.Area_Code))
    selected_device_id := uniques (dScenario.map (fun r => r.Device_ID))
    selected_water_usage := uniques (dScenario.map (fun r => r.Water_Usage))
    selected_year := uniques (dScenario.map Row.Year)
    selected_month := uniques (dScenario.map Row.Month)
    selected_day := uniques (dScenario.map Row.Day) }

/-- One-row dataset with a negative monthly consumption. -/
def dNeg : List Row := [mkRow "U1" "B" (-5)]

/-- One-row dataset whose only leakage group sum is negative. -/
def dNegLeak : List Row := [mkRow "U1" "B" (-100)]

/-- Two-row dataset with one positive and one negative leakage group sum. -/
def dMixedLeak : List Row := [mkRow "U1" "A" 100, mkRow "U2" "B" (-100)]

/-- One-row dataset with positive consumption. -/
def dPos : List Row := [mkRow "U1" "A" 10]

/-! Concrete evaluations of the pipeline on the sample inputs, staged as
small lemmas so each later theorem starts from an explicit row list. -/

theorem filtered_scenario : filtered_data dScenario selScenario = dScenario := by
  simp [filtered_data, dimFilter, selScenario, uniques, uniquesAux, dScenario,
    mkRow, Row.Year, Row.Month, Row.Day]

theorem display_scenario :
    displayTable dScenario selScenario = dScenario.map addLeakage := by
  rw [displayTable, filtered_scenario]

theorem floored_scenario :
    flooredTable dScenario selScenario = (dScenario.map addLeakage).map floorRow := by
  rw [flooredTable, display_scenario]

theorem scenario_leakage_col :
    (displayTable dScenario selScenario).map (fun r => r.Leakage)
      = [1/2, 1, -(1/4)] := by
  rw [display_scenario]
  norm_num [dScenario, mkRow, addLeakage]

theorem scenario_display_monthly :
    (displayTable dScenario selScenario).map (fun r => r.Monthly_Water_Consumption)
      = [10, 20, -5] := by
  rw [display_scenario]
  norm_num [dScenario, mkRow, addLeakage]

theorem scenario_floored_monthly :
    (flooredTable dScenario selScenario).map (fun r => r.Monthly_Water_Consumption)
      = [10, 20, 1/100000] := by
  rw [floored_scenario]
  norm_num [dScenario, mkRow, addLeakage, floorRow, epsFloor]

theorem scenario_sum_A :
    groupSumTA (flooredTable dScenario selScenario)
      (fun r => r.Monthly_Water_Consumption) (t0, "A") = 30 := by
  rw [floored_scenario]
  simp [dScenario, mkRow, addLeakage, floorRow, epsFloor, groupSumTA, t0]
  norm_num

theorem scenario_sum_B :
    groupSumTA (flooredTable dScenario selScenario)
      (fun r => r.Monthly_Water_Consumption) (t0, "B") = 1/100000 := by
  rw [floored_scenario]
  simp [dScenario, mkRow, addLeakage, floorRow, epsFloor, groupSumTA, t0]

theorem filtered_dNeg : filtered_data dNeg emptySel = dNeg := rfl

theorem monthly_consumption_dNeg :
    monthly_consumption dNeg emptySel = [((t0, "B"), 1/100000)] := by
  have h : flooredTable dNeg emptySel = (dNeg.map addLeakage).map floorRow := rfl
  unfold monthly_consumption
  rw [h]
  norm_num [dNeg, mkRow, addLeakage, floorRow, epsFloor, groupKeysTA, groupSumTA,
    uniques, uniquesAux, t0]

theorem display_monthly_sum_dNeg :
    ((displayTable dNeg emptySel).map (fun r => r.Monthly_Water_Consumption)).sum
      = -5 := by
  have h : displayTable dNeg emptySel = dNeg.map addLeakage := rfl
  rw [h]
  norm_num [dNeg, mkRow, addLeakage]

theorem leakSums_dNegLeak : leakSums dNegLeak emptySel = [-5] := by
  have h : flooredTable dNegLeak emptySel = (dNegLeak.map addLeakage).map floorRow := rfl
  unfold leakSums leakage_data
  rw [h]
  norm_num [dNegLeak, mkRow, addLeakage, floorRow, epsFloor, groupKeysTA, groupSumTA,
    uniques, uniquesAux, t0]

theorem leak_range_dNegLeak :
    fig_leakage_range_y dNegLeak emptySel = (0, some (-(11/2))) := by
  unfold fig_leakage_range_y
  rw [leakSums_dNegLeak]
  norm_num [List.max?]

theorem leakSums_dMixedLeak : leakSums dMixedLeak emptySel = [5, -5] := by
  have h : flooredTable dMixedLeak emptySel
      = (dMixedLeak.map addLeakage).map floorRow := rfl
  unfold leakSums leakage_data
  rw [h]
  simp [dMixedLeak, mkRow, addLeakage, floorRow, epsFloor, groupKeysTA,
    groupSumTA, uniques, uniquesAux, t0]
  norm_num

theorem leak_range_dMixedLeak :
    fig_leakage_range_y dMixedLeak emptySel = (0, some (11/2)) := by
  unfold fig_leakage_range_y
  rw [leakSums_dMixedLeak]
  norm_num [List.max?, List.foldl]

theorem barSums_dPos : barSums dPos emptySel = [10] := by
  have h : flooredTable dPos emptySel = (dPos.map addLeakage).map floorRow := rfl
  unfold barSums monthly_consumption
  rw [h]
  norm_num [dPos, mkRow, addLeakage, floorRow, epsFloor, groupKeysTA, groupSumTA,
    uniques, uniquesAux, t0]

theorem leakSums_dPos : leakSums dPos emptySel = [1/2] := by
  have h : flooredTable dPos emptySel = (dPos.map addLeakage).map floorRow := rfl
  unfold leakSums leakage_data
  rw [h]
  norm_num [dPos, mkRow, addLeakage, floorRow, epsFloor, groupKeysTA, groupSumTA,
    uniques, uniquesAux, t0]

/-! Dimension-local selection edits, used to state the empty-vs-select-all
claim. -/

/-- Replace one dimension's selection with the empty list (nothing picked,
select-all unchecked). -/
def clearDim : Dim → Selection → Selection
  | .user, s => { s with selected_id := [] }
  | .area, s => { s with selected_area_code := [] }
  | .device, s => { s with selected_device_id := [] }
  | .usage, s => { s with selected_water_usage := [] }
  | .year, s => { s with selected_year := [] }
  | .month, s => { s with selected_month := [] }
  | .day, s => { s with selected_day := [] }

/-- Replace one dimension's selection with all of that dimension's
available values, i.e. the unique values of the column over the full
dataset (lines 38-44), which is what the select-all checkbox produces
(lines 31-32). -/
def selectAllDim (data : List Row) : Dim → Selection → Selection
  | .user, s => { s with selected_id := uniques (data.map (fun r => r.User_ID)) }
  | .area, s => { s with selected_area_code := uniques (data.map (fun r => r.Area_Code)) }
  | .device, s => { s with selected_device_id := uniques (data.map (fun r => r.Device_ID)) }
  | .usage, s => { s with selected_water_usage := uniques (data.map (fun r => r.Water_Usage)) }
  | .year, s => { s with selected_year := uniques (data.map Row.Year) }
  | .month, s => { s with selected_month := uniques (data.map Row.Month) }
  | .day, s => { s with selected_day := uniques (data.map Row.Day) }

theorem dimOk_nil {α : Type} [DecidableEq α] (v : α) : dimOk [] v = true := by
  simp [dimOk]

theorem dimOk_uniques {α : Type} [DecidableEq α] {v : α} {xs : List α}
    (hv : v ∈ xs) : dimOk (uniques xs) v = true := by
  simp [dimOk, (mem_uniques xs v).mpr hv]

/-- Claim C3: for every dataset and every filter selection, and for each of
the seven filterable dimensions, leaving that dimension's selection empty
yields exactly the same filtered row set as selecting all of that
dimension's available values, with the other dimensions held fixed. -/
theorem C3_thm (data : List Row) (sel : Selection) (d : Dim) :
    filtered_data data (clearDim d sel) = filtered_data data (selectAllDim data d sel) := by
  rw [filtered_data_eq_filter, filtered_data_eq_filter]
  refine List.filter_congr ?_
  intro r hr
  cases d
  case user =>
    simp only [clearDim, selectAllDim, rowMatches]
    rw [dimOk_nil, dimOk_uniques
      (show r.User_ID ∈ data.map (fun r => r.User_ID) from List.mem_map_of_mem _ hr)]
  case area =>
    simp only [clearDim, selectAllDim, rowMatches]
    rw [dimOk_nil, dimOk_uniques
      (show r.Area_Code ∈ data.map (fun r => r.Area_Code) from List.mem_map_of_mem _ hr)]
  case device =>
    simp only [clearDim, selectAllDim, rowMatches]
    rw [dimOk_nil, dimOk_uniques
      (show r.Device_ID ∈ data.map (fun r => r.Device_ID) from List.mem_map_of_mem _ hr)]
  case usage =>
    simp only [clearDim, selectAllDim, rowMatches]
    rw [dimOk_nil, dimOk_uniques
      (show r.Water_Usage ∈ data.map (fun r => r.Water_Usage) from List.mem_map_of_mem _ hr)]
  case year =>
    simp only [clearDim, selectAllDim, rowMatches]
    rw [dimOk_nil, dimOk_uniques
      (show r.Year ∈ data.map Row.Year from List.mem_map_of_mem _ hr)]
  case month =>
    simp only [clearDim, selectAllDim, rowMatches]
    rw [dimOk_nil, dimOk_uniques
      (show r.Month ∈ data.map Row.Month from List.mem_map_of_mem _ hr)]
  case day =>
    simp only [clearDim, selectAllDim, rowMatches]
    rw [dimOk_nil, dimOk_uniques
      (show r.Day ∈ data.map Row.Day from List.mem_map_of_mem _ hr)]

/-- Claim C4: applying the seven per-dimension membership filters in any
order (any permutation of the dimensions) yields the same filtered row set
as the program's fixed order of lines 58-71. -/
theorem C4_thm (data : List Row) (sel : Selection) (ds : List Dim)
    (h : ds.Perm progOrder) :
    applyDims ds sel data = filtered_data data sel := by
  rw [applyDims_eq_filter, filtered_data_eq_applyDims, applyDims_eq_filter]
  exact List.filter_congr (fun r _ => perm_all_eq h _)

theorem C4_witness :
    applyDims [Dim.day, Dim.month, Dim.year, Dim.usage, Dim.device, Dim.area, Dim.user]
      selScenario dScenario = filtered_data dScenario selScenario :=
  C4_thm dScenario selScenario _ (by decide)

/-- Claim C5: every row of the filtered table (with its `Leakage` column as
computed at line 74 and displayed at line 79) has `Leakage` equal to
exactly `0.05` (the exact rational `5/100`) times that row's
`Monthly_Water_Consumption`. -/
theorem C5_thm (data : List Row) (sel : Selection) (r : LRow)
    (h : r ∈ displayTable data sel) :
    r.Leakage = r.Monthly_Water_Consumption * (5/100) := by
  rcases List.mem_map.mp h with ⟨r0, _, rfl⟩
  rfl

theorem C5_witness :
    addLeakage (mkRow "U1" "A" 10) ∈ displayTable dPos emptySel
    ∧ (addLeakage (mkRow "U1" "A" 10)).Leakage
        = (addLeakage (mkRow "U1" "A" 10)).Monthly_Water_Consumption * (5/100) := by
  have hm : addLeakage (mkRow "U1" "A" 10) ∈ displayTable dPos emptySel :=
    List.mem_cons_self _ _
  exact ⟨hm, C5_thm dPos emptySel _ hm⟩

/-- Claim C8: the filtering, leakage-derivation, epsilon-floor and
aggregation statements of the script each assign only to `filtered_data`
or to a fresh aggregate frame, never to `data`: after every step, and after
the whole script body, the `data` slot still holds exactly the loaded
dataset. -/
theorem C8_thm (d : List Row) (sel : Selection) :
    (step_copy ⟨d, [], [], [], []⟩).dataF = d
    ∧ (step_filters sel (step_copy ⟨d, [], [], [], []⟩)).dataF = d
    ∧ (step_leakage (step_filters sel (step_copy ⟨d, [], [], [], []⟩))).dataF = d
    ∧ (step_floor (step_leakage (step_filters sel (step_copy ⟨d, [], [], [], []⟩)))).dataF = d
    ∧ (runScript d sel).dataF = d :=
  ⟨rfl, rfl, rfl, rfl, rfl⟩

/-- Claim C10: the filtered table is exactly the order-preserving
subsequence of the dataset selected by the conjunction of the non-empty
dimension constraints: it equals `List.filter` of that predicate, it is a
sublist of the dataset (same relative order, no synthesized rows), and each
row occurs exactly as often as its matching occurrences in the dataset. -/
theorem C10_thm (data : List Row) (sel : Selection) :
    filtered_data data sel = data.filter (fun r => rowMatches sel r)
    ∧ (filtered_data data sel).Sublist data
    ∧ ∀ r : Row, (filtered_data data sel).count r
        = if rowMatches sel r then data.count r else 0 := by
  refine ⟨filtered_data_eq_filter data sel, ?_, ?_⟩
  · rw [filtered_data_eq_filter]
    exact List.filter_sublist data
  · intro r
    rw [filtered_data_eq_filter]
    by_cases h : rowMatches sel r = true
    · rw [if_pos h, List.count_filter h]
    · rw [if_neg h, List.count_eq_zero]
      intro hc
      exact h ((List.mem_filter.mp hc).2)

theorem flooredTable_eq_nil_iff (data : List Row) (sel : Selection) :
    flooredTable data sel = [] ↔ filtered_data data sel = [] := by
  unfold flooredTable displayTable
  simp [List.map_eq_nil_iff]

theorem groupKeysTA_ne_nil {data : List Row} {sel : Selection}
    (h : filtered_data data sel ≠ []) :
    groupKeysTA (flooredTable data sel) ≠ [] := by
  have hf : flooredTable data sel ≠ [] :=
    fun hc => h ((flooredTable_eq_nil_iff data sel).mp hc)
  exact uniques_ne_nil (fun hm => hf (List.map_eq_nil_iff.mp hm))

theorem barSums_ne_nil {data : List Row} {sel : Selection}
    (h : filtered_data data sel ≠ []) : barSums data sel ≠ [] := by
  unfold barSums monthly_consumption
  intro hc
  rw [List.map_eq_nil_iff, List.map_eq_nil_iff] at hc
  exact groupKeysTA_ne_nil h hc

theorem leakSums_ne_nil {data : List Row} {sel : Selection}
    (h : filtered_data data sel ≠ []) : leakSums data sel ≠ [] := by
  unfold leakSums leakage_data
  intro hc
  rw [List.map_eq_nil_iff, List.map_eq_nil_iff] at hc
  exact groupKeysTA_ne_nil h hc

/-- Claim C6: on a non-empty filtered table, the bar view's y-axis upper
bound is `1.1` times the maximum of the `(Time, Area_Code)`-grouped sums of
`Monthly_Water_Consumption`, and the leakage view's upper bound is `1.1`
times the maximum of the grouped sums of `Leakage` (each maximum attained
by a group and bounding every group); on an empty filtered table each bound
takes the defined default `(0, none)`, `none` modelling the `NaN` that
`max()` of an empty pandas series yields. -/
theorem C6_thm (data : List Row) (sel : Selection) :
    (filtered_data data sel = [] →
      fig_bar_range_y data sel = (0, none)
      ∧ fig_leakage_range_y data sel = (0, none))
    ∧ (filtered_data data sel ≠ [] →
      ∃ mb ml,
        mb ∈ barSums data sel ∧ (∀ x ∈ barSums data sel, x ≤ mb)
        ∧ fig_bar_range_y data sel = (0, some (mb * (11/10)))
        ∧ ml ∈ leakSums data sel ∧ (∀ x ∈ leakSums data sel, x ≤ ml)
        ∧ fig_leakage_range_y data sel = (0, some (ml * (11/10)))) := by
  constructor
  · intro h
    have hf : flooredTable data sel = [] := (flooredTable_eq_nil_iff data sel).mpr h
    unfold fig_bar_range_y fig_leakage_range_y barSums leakSums monthly_consumption
      leakage_data groupKeysTA
    rw [hf]
    simp [uniques, uniquesAux]
  · intro h
    obtain ⟨mb, hmb, hmemb, hubb⟩ := exists_max_of_ne_nil (barSums_ne_nil h)
    obtain ⟨ml, hml, hmeml, hubl⟩ := exists_max_of_ne_nil (leakSums_ne_nil h)
    refine ⟨mb, ml, hmemb, hubb, ?_, hmeml, hubl, ?_⟩
    · unfold fig_bar_range_y
      rw [hmb]
      rfl
    · unfold fig_leakage_range_y
      rw [hml]
      rfl

theorem C6_witness :
    (fig_bar_range_y [] emptySel = (0, none)
      ∧ fig_leakage_range_y [] emptySel = (0, none))
    ∧ ∃ mb ml,
        mb ∈ barSums dPos emptySel ∧ (∀ x ∈ barSums dPos emptySel, x ≤ mb)
        ∧ fig_bar_range_y dPos emptySel = (0, some (mb * (11/10)))
        ∧ ml ∈ leakSums dPos emptySel ∧ (∀ x ∈ leakSums dPos emptySel, x ≤ ml)
        ∧ fig_leakage_range_y dPos emptySel = (0, some (ml * (11/10))) :=
  ⟨(C6_thm [] emptySel).1 rfl,
   (C6_thm dPos emptySel).2 (List.cons_ne_nil _ _)⟩

/-- Claim C1 fails on the code: the epsilon floor of lines 129-130 mutates
`filtered_data` in place before the `groupby` of line 158 runs, so on the
one-row dataset `dNeg` (monthly consumption `-5`) the `(Time, Area_Code)`
sum-aggregated view holds the floored value `1e-5`, not the original sum
`-5` the claim requires. -/
theorem C1_counterexample :
    monthly_consumption dNeg emptySel = [((t0, "B"), 1/100000)]
    ∧ ((displayTable dNeg emptySel).map (fun r => r.Monthly_Water_Consumption)).sum = -5
    ∧ (1/100000 : ℚ) ≠ -5 :=
  ⟨monthly_consumption_dNeg, display_monthly_sum_dNeg, by norm_num⟩

/-- Claim C1, amended: the raw/tabular display (rendered at line 79, before
the floor) and the leakage-based aggregate retain the original unfloored
values — the displayed consumption columns equal the filtered rows'
original columns, and the leakage grouped sums are unchanged by the floor —
but the `monthly_consumption` sum-aggregated views are computed from the
floored column (every bar-view grouped sum is strictly positive, whatever
the original values were). -/
theorem C1_thm (data : List Row) (sel : Selection) :
    ((displayTable data sel).map (fun r => r.Monthly_Water_Consumption)
        = (filtered_data data sel).map Row.Monthly_Water_Consumption)
    ∧ ((displayTable data sel).map (fun r => r.Daily_Water_Consumption)
        = (filtered_data data sel).map Row.Daily_Water_Consumption)
    ∧ leakage_data data sel
        = (groupKeysTA (displayTable data sel)).map
            (fun k => (k, groupSumTA (displayTable data sel) (fun r => r.Leakage) k))
    ∧ (∀ x ∈ barSums data sel, 0 < x) := by
  refine ⟨?_, ?_, ?_, barSums_pos data sel⟩
  · unfold displayTable
    rw [List.map_map]
    rfl
  · unfold displayTable
    rw [List.map_map]
    rfl
  · unfold leakage_data flooredTable
    rw [groupKeysTA_floor]
    refine List.map_congr_left ?_
    intro k _
    rw [groupSumTA_floor_leakage]

theorem C1_witness : (0 : ℚ) < 10 :=
  (C1_thm dPos emptySel).2.2.2 10
    (by rw [barSums_dPos]; exact List.mem_cons_self _ _)

/-- Claim C2 fails on the code at the spec's own 3-record scenario: with
every dimension fully selected, the `(Time, Area_Code)`-grouped monthly sum
for area `B` is the floored `1e-5`, not the claimed `-5`, because the
epsilon substitution overwrote the same `filtered_data` frame the aggregate
reads. -/
theorem C2_counterexample :
    groupSumTA (flooredTable dScenario selScenario)
      (fun r => r.Monthly_Water_Consumption) (t0, "B") = 1/100000
    ∧ (1/100000 : ℚ) ≠ -5 :=
  ⟨scenario_sum_B, by norm_num⟩

/-- Claim C2, amended: on the 3-record scenario dataset with every
dimension fully selected, the filtered table has 3 rows, the leakage column
is `[0.5, 1.0, -0.25]`, the displayed (pre-floor) monthly column is
`[10, 20, -5]`, the grouped monthly sum is `30` for area `A` but the
floored `1e-5` (not `-5`) for area `B`, and the substitution is applied in
place to the very table the aggregates read (the aggregated table is the
floored image of the displayed one, `[10, 20, 1e-5]`). -/
theorem C2_thm :
    (filtered_data dScenario selScenario).length = 3
    ∧ groupSumTA (flooredTable dScenario selScenario)
        (fun r => r.Monthly_Water_Consumption) (t0, "A") = 30
    ∧ groupSumTA (flooredTable dScenario selScenario)
        (fun r => r.Monthly_Water_Consumption) (t0, "B") = 1/100000
    ∧ (displayTable dScenario selScenario).map (fun r => r.Leakage) = [1/2, 1, -(1/4)]
    ∧ (flooredTable dScenario selScenario).map (fun r => r.Monthly_Water_Consumption)
        = [10, 20, 1/100000]
    ∧ (displayTable dScenario selScenario).map (fun r => r.Monthly_Water_Consumption)
        = [10, 20, -5]
    ∧ flooredTable dScenario selScenario = (displayTable dScenario selScenario).map floorRow := by
  refine ⟨?_, scenario_sum_A, scenario_sum_B, scenario_leakage_col,
    scenario_floored_monthly, scenario_display_monthly, rfl⟩
  rw [filtered_scenario]
  rfl

/-- The interval of values an axis with the given bounds displays: the
unordered closed interval between the two endpoints (a chart library draws
a reversed axis when the bounds are inverted). -/
def axisInterval (lb ub : ℚ) : Set ℚ := Set.uIcc lb ub

/-- Claim C9 fails on the code: the lower bound is indeed the constant 0,
but on the one-row dataset `dNegLeak` the only leakage grouped sum is `-5`,
the upper bound is `-5 * 1.1 = -5.5`, and `-5` lies inside the (inverted)
displayed axis interval rather than outside it. -/
theorem C9_counterexample :
    fig_leakage_range_y dNegLeak emptySel = (0, some (-(11/2)))
    ∧ (-5 : ℚ) ∈ leakSums dNegLeak emptySel
    ∧ (-5 : ℚ) < 0
    ∧ (-5 : ℚ) ∈ axisInterval 0 (-(11/2)) := by
  refine ⟨leak_range_dNegLeak, ?_, by norm_num, ?_⟩
  · rw [leakSums_dNegLeak]
    exact List.mem_cons_self _ _
  · rw [axisInterval, Set.mem_uIcc]
    norm_num

/-- Claim C9, amended: both views' y-ranges have the constant lower bound 0
independent of the data; every bar-view grouped sum is strictly positive
(so no negative value arises there); and a negative leakage grouped sum
lies outside the displayed axis interval whenever the upper bound is
nonnegative — when the maximum leakage sum is negative the range is
inverted and can contain the negative sums. -/
theorem C9_thm (data : List Row) (sel : Selection) :
    (fig_bar_range_y data sel).1 = 0
    ∧ (fig_leakage_range_y data sel).1 = 0
    ∧ (∀ x ∈ barSums data sel, 0 < x)
    ∧ ∀ ub, (fig_leakage_range_y data sel).2 = some ub → 0 ≤ ub →
        ∀ x ∈ leakSums data sel, x < 0 → x ∉ axisInterval 0 ub := by
  refine ⟨rfl, rfl, barSums_pos data sel, ?_⟩
  intro ub _ hub x _ hx hmem
  rw [axisInterval, Set.mem_uIcc] at hmem
  rcases hmem with ⟨h1, h2⟩ | ⟨h1, h2⟩
  · linarith
  · linarith

theorem C9_witness : (-5 : ℚ) ∉ axisInterval 0 (11/2) :=
  (C9_thm dMixedLeak emptySel).2.2.2 (11/2)
    (by rw [leak_range_dMixedLeak]) (by norm_num) (-5)
    (by rw [leakSums_dMixedLeak]
        exact List.mem_cons_of_mem _ (List.mem_cons_self _ _))
    (by norm_num)

/-- Input frame with no `Time` column. -/
def fNoTime : Frame := [("User_ID", [Cell.str "U1"])]

/-- Input frame whose `Time` column parses but which lacks every
consumption and identifier column. -/
def fMissingCols : Frame := [("Time", [Cell.timeVal t0])]

/-- Input frame with an index artifact column, a parseable `Time` string
column, an identifier column and an `Anomalous` flag column. -/
def fRaw : Frame :=
  [("Unnamed: 0", [Cell.num 0]), ("Time", [Cell.timeStr t0]),
   ("User_ID", [Cell.str "U1"]), ("Anomalous", [Cell.num 1])]

theorem postLoad_names (f : Frame) (ps : List Cell) :
    ∀ c ∈ postLoad f ps, ¬ c.1.startsWith "Unnamed" ∧ c.1 ≠ "Anomalous" := by
  intro c hc
  simp only [postLoad] at hc
  by_cases hA : "Anomalous"
      ∈ ((setCol f "Time" ps).filter (fun c => !(c.1.startsWith "Unnamed"))).map Prod.fst
  · rw [if_pos hA] at hc
    obtain ⟨hc2, hbne⟩ := List.mem_filter.mp hc
    obtain ⟨_, hsw⟩ := List.mem_filter.mp hc2
    exact ⟨by simp_all, bne_iff_ne.mp hbne⟩
  · rw [if_neg hA] at hc
    obtain ⟨_, hsw⟩ := List.mem_filter.mp hc
    refine ⟨by simp_all, fun he => hA ?_⟩
    exact he ▸ List.mem_map_of_mem Prod.fst hc

theorem time_not_unnamed : ("Time" : String).startsWith "Unnamed" = false := by
  decide

theorem time_not_anomalous : (("Time" : String) != "Anomalous") = true := by
  decide

theorem postLoad_time (f : Frame) (ps : List Cell) (cs : List Cell)
    (hcs : getCol f "Time" = some cs) : ("Time", ps) ∈ postLoad f ps := by
  unfold getCol at hcs
  obtain ⟨c0, hfind, _⟩ := Option.map_eq_some'.mp hcs
  have hc0f : c0 ∈ f := List.mem_of_find?_eq_some hfind
  have hps := List.find?_some hfind
  have hc01 : c0.1 = "Time" := of_decide_eq_true hps
  have h1 : ("Time", ps) ∈ setCol f "Time" ps := by
    have h0 : (if c0.1 = "Time" then (c0.1, ps) else c0) ∈ setCol f "Time" ps :=
      List.mem_map_of_mem _ hc0f
    rw [if_pos hc01, hc01] at h0
    exact h0
  have h2 : ("Time", ps)
      ∈ (setCol f "Time" ps).filter (fun c => !(c.1.startsWith "Unnamed")) :=
    List.mem_filter.mpr ⟨h1, by simp [time_not_unnamed]⟩
  simp only [postLoad]
  by_cases hA : "Anomalous"
      ∈ ((setCol f "Time" ps).filter (fun c => !(c.1.startsWith "Unnamed"))).map Prod.fst
  · rw [if_pos hA]
    exact List.mem_filter.mpr ⟨h2, by simp [time_not_anomalous]⟩
  · rw [if_neg hA]
    exact h2

theorem postLoad_sub (f : Frame) (ps : List Cell) :
    ∀ c ∈ postLoad f ps, c.1 = "Time" ∨ c ∈ f := by
  intro c hc
  simp only [postLoad] at hc
  have hc2 : c ∈ (setCol f "Time" ps).filter (fun c => !(c.1.startsWith "Unnamed")) := by
    by_cases hA : "Anomalous"
        ∈ ((setCol f "Time" ps).filter (fun c => !(c.1.startsWith "Unnamed"))).map Prod.fst
    · rw [if_pos hA] at hc
      exact (List.mem_filter.mp hc).1
    · rw [if_neg hA] at hc
      exact hc
  have hc1 : c ∈ setCol f "Time" ps := (List.mem_filter.mp hc2).1
  unfold setCol at hc1
  obtain ⟨c0, hc0f, heq⟩ := List.mem_map.mp hc1
  by_cases hT : c0.1 = "Time"
  · rw [if_pos hT] at heq
    left
    rw [← heq]
    exact hT
  · rw [if_neg hT] at heq
    right
    rw [← heq]
    exact hc0f

theorem postLoad_keep (f : Frame) (ps : List Cell) :
    ∀ c ∈ f, ¬ c.1.startsWith "Unnamed" → c.1 ≠ "Anomalous" →
      c.1 = "Time" ∨ c ∈ postLoad f ps := by
  intro c hcf hU hA
  by_cases hT : c.1 = "Time"
  · exact Or.inl hT
  · right
    have h1 : c ∈ setCol f "Time" ps := by
      have h0 : (if c.1 = "Time" then (c.1, ps) else c) ∈ setCol f "Time" ps :=
        List.mem_map_of_mem _ hcf
      rw [if_neg hT] at h0
      exact h0
    have h2 : c ∈ (setCol f "Time" ps).filter (fun c => !(c.1.startsWith "Unnamed")) :=
      List.mem_filter.mpr ⟨h1, by cases h : (c.1.startsWith "Unnamed") <;> simp_all⟩
    simp only [postLoad]
    by_cases hAn : "Anomalous"
        ∈ ((setCol f "Time" ps).filter (fun c => !(c.1.startsWith "Unnamed"))).map Prod.fst
    · rw [if_pos hAn]
      exact List.mem_filter.mpr ⟨h2, by simpa [bne_iff_ne] using hA⟩
    · rw [if_neg hAn]
      exact h2

/-- Claim C7 fails on the code: `load_data` validates only the `Time`
column; on a frame that lacks every consumption and identifier column it
succeeds and returns the partial dataset instead of failing with a
`SchemaError`. -/
theorem C7_counterexample :
    load_data fMissingCols = Except.ok [("Time", [Cell.timeVal t0])]
    ∧ getCol fMissingCols "Monthly_Water_Consumption" = none
    ∧ getCol fMissingCols "User_ID" = none :=
  ⟨rfl, rfl, rfl⟩

/-- Claim C7, amended: `load_data` fails with a `SchemaError` exactly when
the `Time` column is missing or holds an unparseable cell; on success it
strips every column whose name starts with `Unnamed`, drops `Anomalous`,
replaces `Time` by its parsed date-time cells and keeps every other column
unchanged — the absence of consumption or identifier columns is not
detected at load time. -/
theorem C7_thm (f : Frame) :
    (getCol f "Time" = none → load_data f = .error (.missingColumn "Time"))
    ∧ ∀ cs, getCol f "Time" = some cs →
        ((cs.mapM parseDatetime = none → load_data f = .error .unparseableTimestamp)
         ∧ ∀ ps, cs.mapM parseDatetime = some ps →
            load_data f = .ok (postLoad f ps)
            ∧ (∀ c ∈ postLoad f ps, ¬ c.1.startsWith "Unnamed" ∧ c.1 ≠ "Anomalous")
            ∧ ("Time", ps) ∈ postLoad f ps
            ∧ (∀ c ∈ postLoad f ps, c.1 = "Time" ∨ c ∈ f)
            ∧ (∀ c ∈ f, ¬ c.1.startsWith "Unnamed" → c.1 ≠ "Anomalous" →
                c.1 = "Time" ∨ c ∈ postLoad f ps)) := by
  refine ⟨?_, ?_⟩
  · intro h
    unfold load_data
    rw [h]
  · intro cs hcs
    refine ⟨?_, ?_⟩
    · intro hp
      unfold load_data
      rw [hcs]
      show (match cs.mapM parseDatetime with
        | none => Except.error SchemaError.unparseableTimestamp
        | some ps => Except.ok (postLoad f ps))
          = Except.error SchemaError.unparseableTimestamp
      rw [hp]
    · intro ps hp
      refine ⟨?_, postLoad_names f ps, postLoad_time f ps cs hcs,
        postLoad_sub f ps, postLoad_keep f ps⟩
      unfold load_data
      rw [hcs]
      show (match cs.mapM parseDatetime with
        | none => Except.error SchemaError.unparseableTimestamp
        | some qs => Except.ok (postLoad f qs))
          = Except.ok (postLoad f ps)
      rw [hp]

theorem C7_witness :
    load_data fNoTime = .error (.missingColumn "Time")
    ∧ (load_data fRaw = .ok (postLoad fRaw [Cell.timeVal t0])
       ∧ (∀ c ∈ postLoad fRaw [Cell.timeVal t0],
            ¬ c.1.startsWith "Unnamed" ∧ c.1 ≠ "Anomalous")
       ∧ ("Time", [Cell.timeVal t0]) ∈ postLoad fRaw [Cell.timeVal t0]
       ∧ (∀ c ∈ postLoad fRaw [Cell.timeVal t0], c.1 = "Time" ∨ c ∈ fRaw)
       ∧ (∀ c ∈ fRaw, ¬ c.1.startsWith "Unnamed" → c.1 ≠ "Anomalous" →
            c.1 = "Time" ∨ c ∈ postLoad fRaw [Cell.timeVal t0])) :=
  ⟨(C7_thm fNoTime).1 rfl,
   ((C7_thm fRaw).2 [Cell.timeStr t0] rfl).2 [Cell.timeVal t0] rfl⟩

end MainDashboard
